import Mathlib

/-!
Shallow embedding of the session/token management and authorization-check
subsystem of the express_starter_kit repository.

The embedded code:
  * src/services/token.service.ts — createSession, validateSessionToken,
    invalidateSession, saveToken, verifyToken;
  * src/services/auth.service.ts — resetPassword;
  * src/middlewares/auth.ts — the required-rights check of the auth middleware.

The Prisma-backed database is embedded as an explicit `Store` value (lists of
session, token and user records) threaded through each operation; operations
that the TypeScript code lets throw are embedded in `Except`.  Timestamps are
millisecond values (`Int`), mirroring `Date.getTime()` / `Date.now()`.  The
`@oslojs` hashing pipeline `encodeHexLowerCase (sha256 (TextEncoder.encode t))`
is embedded by a full executable SHA-256 over the UTF-8 bytes of the string,
rendered as lowercase hexadecimal.
-/

namespace SHA256

/-- Reduce a machine word to 32 bits, the wrap-around all SHA-256 word
operations carry. -/
def trunc32 (x : Nat) : Nat := x % 4294967296

/-- Rotate a 32-bit word right by n positions. -/
def rotr32 (n x : Nat) : Nat := trunc32 ((x >>> n) ||| (x <<< (32 - n)))

/-- The choose function of the compression rounds: bits of y where x is set,
bits of z elsewhere. -/
def chooseFn (x y z : Nat) : Nat := (x &&& y) ^^^ ((x ^^^ 4294967295) &&& z)

/-- The majority function of the compression rounds. -/
def majorityFn (x y z : Nat) : Nat := (x &&& y) ^^^ (x &&& z) ^^^ (y &&& z)

/-- The upper-case sigma functions of FIPS 180-4 (rotation amounts 2/13/22
and 6/11/25). -/
def sigmaBig0 (x : Nat) : Nat := (rotr32 2 x) ^^^ (rotr32 13 x) ^^^ (rotr32 22 x)

/-- See sigmaBig0. -/
def sigmaBig1 (x : Nat) : Nat := (rotr32 6 x) ^^^ (rotr32 11 x) ^^^ (rotr32 25 x)

/-- The lower-case sigma functions of the message schedule (rotations 7/18
with shift 3, and 17/19 with shift 10). -/
def sigmaSmall0 (x : Nat) : Nat := (rotr32 7 x) ^^^ (rotr32 18 x) ^^^ (x >>> 3)

/-- See sigmaSmall0. -/
def sigmaSmall1 (x : Nat) : Nat := (rotr32 17 x) ^^^ (rotr32 19 x) ^^^ (x >>> 10)

/-- The sixty-four round constants of FIPS 180-4 section 4.2.2 (the first
thirty-two bits of the fractional parts of the cube roots of the first
sixty-four primes), written in decimal. -/
def roundConsts : List Nat :=
  [1116352408, 1899447441, 3049323471, 3921009573, 961987163,
   1508970993, 2453635748, 2870763221, 3624381080, 310598401,
   607225278, 1426881987, 1925078388, 2162078206, 2614888103,
   3248222580, 3835390401, 4022224774, 264347078, 604807628,
   770255983, 1249150122, 1555081692, 1996064986, 2554220882,
   2821834349, 2952996808, 3210313671, 3336571891, 3584528711,
   113926993, 338241895, 666307205, 773529912, 1294757372,
   1396182291, 1695183700, 1986661051, 2177026350, 2456956037,
   2730485921, 2820302411, 3259730800, 3345764771, 3516065817,
   3600352804, 4094571909, 275423344, 430227734, 506948616,
   659060556, 883997877, 958139571, 1322822218, 1537002063,
   1747873779, 1955562222, 2024104815, 2227730452, 2361852424,
   2428436474, 2756734187, 3204031479, 3329325298]

/-- The eight initial hash words of FIPS 180-4 section 5.3.3, in decimal. -/
def initState : List Nat :=
  [1779033703, 3144134277, 1013904242,
   2773480762, 1359893119, 2600822924,
   528734635, 1541459225]

/-- The trailing eight bytes of the padded message: the bit length in
big-endian order. -/
def lengthField (bitLen : Nat) : List Nat :=
  [(bitLen >>> 56) % 256, (bitLen >>> 48) % 256, (bitLen >>> 40) % 256, (bitLen >>> 32) % 256,
   (bitLen >>> 24) % 256, (bitLen >>> 16) % 256, (bitLen >>> 8) % 256, bitLen % 256]

/-- Pad a byte message per FIPS 180-4 section 5.1.1: a single 128 byte, then
zeros so the length field ends a 64-byte block. -/
def padMessage (msg : List Nat) : List Nat :=
  let k := (119 - (msg.length % 64)) % 64
  msg ++ (128 :: List.replicate k 0) ++ lengthField (8 * msg.length)

/-- Assemble bytes, four at a time and big-endian, into 32-bit words. -/
def bytesToWords : List Nat → List Nat
  | b0 :: b1 :: b2 :: b3 :: rest =>
    ((b0 <<< 24) ||| (b1 <<< 16) ||| (b2 <<< 8) ||| b3) :: bytesToWords rest
  | _ => []

/-- Grow a 16-word block to the 64-word schedule; the counter says how many
words are still missing (48 on the outermost call). -/
def scheduleFill (w : List Nat) : Nat → List Nat
  | 0 => w
  | missing + 1 =>
    let j := w.length
    let next := trunc32 (sigmaSmall1 (w.getD (j - 2) 0) + w.getD (j - 7) 0 +
      sigmaSmall0 (w.getD (j - 15) 0) + w.getD (j - 16) 0)
    scheduleFill (w ++ [next]) missing

/-- One compression round over the eight-word working state, fed one round
constant and one schedule word. -/
def mixOne (state : List Nat) (kc wd : Nat) : List Nat :=
  match state with
  | a :: b :: c :: d :: e :: f :: g :: h :: [] =>
    let u := trunc32 (h + sigmaBig1 e + chooseFn e f g + kc + wd)
    let v := trunc32 (sigmaBig0 a + majorityFn a b c)
    trunc32 (u + v) :: a :: b :: c :: trunc32 (d + u) :: e :: f :: g :: []
  | other => other

/-- Compress one block: run the 64 rounds, then add the outcome back onto
the incoming state word by word. -/
def mixBlock (hsh : List Nat) (block : List Nat) : List Nat :=
  let rounds := (roundConsts.zip (scheduleFill block 48)).foldl
    (fun s p => mixOne s p.1 p.2) hsh
  (hsh.zip rounds).map (fun p => trunc32 (p.1 + p.2))

/-- Cut a word list into 16-word blocks; the fuel argument is the list
length at every call site. -/
def groupWords : Nat → List Nat → List (List Nat)
  | 0, _ => []
  | _, [] => []
  | fuel + 1, l => l.take 16 :: groupWords fuel (l.drop 16)

/-- Serialize one 32-bit word into four big-endian bytes. -/
def bePieces (w : Nat) : List Nat :=
  [(w >>> 24) % 256, (w >>> 16) % 256, (w >>> 8) % 256, w % 256]

/-- The 32-byte digest of a byte message. -/
def digestOf (msg : List Nat) : List Nat :=
  let ws := bytesToWords (padMessage msg)
  (((groupWords ws.length ws).foldl mixBlock initState).map bePieces).flatten

/-- One lowercase hexadecimal digit (0-9 then a-f). -/
def nibbleChar (n : Nat) : Char := if n < 10 then Char.ofNat (48 + n) else Char.ofNat (87 + n)

/-- A byte as two lowercase hexadecimal digits. -/
def hexPair (b : Nat) : List Char := [nibbleChar (b / 16), nibbleChar (b % 16)]

/-- The UTF-8 byte sequence of one unicode scalar, matching what
TextEncoder.encode emits for it. -/
def encodeScalar (c : Char) : List Nat :=
  let n := c.toNat
  if n < 128 then [n]
  else if n < 2048 then [192 ||| (n >>> 6), 128 ||| (n &&& 63)]
  else if n < 65536 then
    [224 ||| (n >>> 12), 128 ||| ((n >>> 6) &&& 63), 128 ||| (n &&& 63)]
  else
    [240 ||| (n >>> 18), 128 ||| ((n >>> 12) &&& 63), 128 ||| ((n >>> 6) &&& 63),
     128 ||| (n &&& 63)]

/-- The UTF-8 bytes of a whole string. -/
def stringBytes (s : String) : List Nat := (s.data.map encodeScalar).flatten

end SHA256

/-- The token-to-identifier derivation of token.service.ts:
`encodeHexLowerCase(sha256(new TextEncoder().encode(token)))` — the lowercase
hexadecimal SHA-256 digest of the UTF-8 bytes of the token. -/
def sha256Hex (s : String) : String :=
  String.mk (((SHA256.digestOf (SHA256.stringBytes s)).map SHA256.hexPair).flatten)

/-- FIPS 180-4 test vector for the embedded digest. -/
theorem sha256Hex_abc :
    sha256Hex "abc" = "ba7816bf8f01cfea414140de5dae2223b00361a396177a9cb410ff61f20015ad" := by
  decide

/-- FIPS 180-4 test vector for the empty message. -/
theorem sha256Hex_empty :
    sha256Hex "" = "e3b0c44298fc1c149afbf4c8996fb92427ae41e4649b934ca495991b7852b855" := by
  decide

/-- The Prisma `Session` model: hash-derived id, owning user id, and expiry
timestamp in milliseconds. -/
structure Session where
  id : String
  userId : String
  expiresAt : Int
deriving Repr, DecidableEq

/-- The Prisma `TokenType` enum; the service code uses exactly these two
members. -/
inductive TokenType where
  | RESET_PASSWORD
  | VERIFY_EMAIL
deriving Repr, DecidableEq

/-- The Prisma `Token` model as written by `saveToken`: the hashed token
string, owning user id, expiry, purpose and blacklist flag.  (The
auto-incremented numeric primary key is never read by the embedded code and
is omitted.) -/
structure Token where
  token : String
  userId : String
  expires : Int
  type : TokenType
  blacklisted : Bool
deriving Repr, DecidableEq

/-- The user record fields the embedded code reads: id, role and password. -/
structure User where
  id : String
  role : String
  password : String
deriving Repr, DecidableEq

/-- The database state: the session, token and user tables. -/
structure Store where
  sessions : List Session
  tokens : List Token
  users : List User
deriving Repr, DecidableEq

/-- The `SessionValidationResult` union of token.service.ts, with the two
fields kept independent so that the both-present-or-both-absent shape is a
provable property rather than a typing assumption. -/
structure SessionValidationResult where
  session : Option Session
  user : Option User
deriving Repr, DecidableEq

/-- The `ApiError` carried by thrown auth failures: HTTP status code and
message. -/
structure ApiError where
  statusCode : Nat
  message : String
deriving Repr, DecidableEq

/-- Thirty days in milliseconds, `1000 * 60 * 60 * 24 * 30` in the source. -/
def thirtyDaysMs : Int := 1000 * 60 * 60 * 24 * 30

/-- Fifteen days in milliseconds, `1000 * 60 * 60 * 24 * 15` in the source. -/
def fifteenDaysMs : Int := 1000 * 60 * 60 * 24 * 15

/-- token.service.ts `createSession`: hash the raw token into the session id,
build the record with the given expiry (defaulting to now + 30 days), and
insert it; a duplicate id violates the primary-key uniqueness Prisma enforces
on `session.create` and surfaces as an error. -/
def createSession (st : Store) (token userId : String) (now : Int)
    (expiresAt : Option Int) : Except String (Store × Session) :=
  let sessionId := sha256Hex token
  let session : Session := Session.mk sessionId userId (expiresAt.getD (now + thirtyDaysMs))
  if st.sessions.any (fun s => s.id == sessionId) then
    Except.error "Unique constraint failed on the fields: (id)"
  else
    Except.ok (Store.mk (st.sessions ++ [session]) st.tokens st.users, session)

/-- token.service.ts `validateSessionToken`: hash the raw token, look the
session up by id joined with its owning user (`include: user`, a required
relation — a dangling user reference makes Prisma throw an inconsistency
error), delete and report absent when expired, renew the expiry when fewer
than fifteen days remain, and return the session/user pair. -/
def validateSessionToken (st : Store) (token : String) (now : Int) :
    Except String (Store × SessionValidationResult) :=
  let sessionId := sha256Hex token
  match st.sessions.find? (fun s => s.id == sessionId) with
  | none => Except.ok (st, SessionValidationResult.mk none none)
  | some session =>
    match st.users.find? (fun u => u.id == session.userId) with
    | none => Except.error "Inconsistent query result: required relation user is absent"
    | some user =>
      if session.expiresAt ≤ now then
        Except.ok
          (Store.mk (st.sessions.filter (fun s => s.id != sessionId)) st.tokens st.users,
            SessionValidationResult.mk none none)
      else if session.expiresAt - fifteenDaysMs ≤ now then
        Except.ok
          (Store.mk
            (st.sessions.map (fun s =>
              if s.id == session.id then Session.mk s.id s.userId (now + thirtyDaysMs) else s))
            st.tokens st.users,
            SessionValidationResult.mk
              (some (Session.mk session.id session.userId (now + thirtyDaysMs))) (some user))
      else
        Except.ok (st, SessionValidationResult.mk (some session) (some user))

/-- token.service.ts `invalidateSession`: hash the raw token and delete the
session; `session.delete` on an absent id makes Prisma throw. -/
def invalidateSession (st : Store) (token : String) : Except String Store :=
  let sessionId := sha256Hex token
  if st.sessions.any (fun s => s.id == sessionId) then
    Except.ok (Store.mk (st.sessions.filter (fun s => s.id != sessionId)) st.tokens st.users)
  else
    Except.error "Record to delete does not exist"

/-- token.service.ts `saveToken`: hash the raw token and insert a token record
with the given user, expiry, purpose and blacklist flag, returning the
created record. -/
def saveToken (st : Store) (token userId : String) (expires : Int)
    (ty : TokenType) (blacklisted : Bool) : Store × Token :=
  let hashedToken := sha256Hex token
  let createdToken : Token := Token.mk hashedToken userId expires ty blacklisted
  (Store.mk st.sessions (st.tokens ++ [createdToken]) st.users, createdToken)

/-- token.service.ts `verifyToken`: hash the raw token and `findFirst` a token
record matching hash, purpose and blacklist flag; absent matches throw
`Token not found`.  The query never consults the `expires` column. -/
def verifyToken (st : Store) (token : String) (ty : TokenType)
    (blacklisted : Bool) : Except String Token :=
  let hashedToken := sha256Hex token
  match st.tokens.find? (fun t =>
      t.token == hashedToken && t.type == ty && t.blacklisted == blacklisted) with
  | none => Except.error "Token not found"
  | some tokenData => Except.ok tokenData

/-- auth.service.ts `prisma.token.deleteMany` with a userId + type filter:
remove every token of the given purpose owned by the given user. -/
def deleteTokensByUserAndType (st : Store) (userId : String) (ty : TokenType) : Store :=
  Store.mk st.sessions
    (st.tokens.filter (fun t => !(t.userId == userId && t.type == ty))) st.users

/-- Modelled from the spec: the user-lookup collaborator operation
`getById(id)` (the repository file src/services/user.service.ts is not under
src/) — exact lookup of a user by id, absent when no such user. -/
def getUserById (st : Store) (userId : String) : Option User :=
  st.users.find? (fun u => u.id == userId)

/-- Modelled from the spec: the user-lookup collaborator operation
`updateById(id, fields)` (src/services/user.service.ts is not under src/) —
update the password field of the user with the given id, failing when no such
user exists. -/
def updateUserById (st : Store) (userId newPassword : String) : Except String Store :=
  if st.users.any (fun u => u.id == userId) then
    Except.ok (Store.mk st.sessions st.tokens
      (st.users.map (fun u =>
        if u.id == userId then User.mk u.id u.role newPassword else u)))
  else
    Except.error "User not found"

/-- The body of the try block of auth.service.ts `resetPassword`: verify the
reset token (purpose RESET_PASSWORD, not blacklisted), resolve the owning
user (throwing when absent), update the password, then delete every
RESET_PASSWORD token of that user. -/
def resetPasswordAttempt (st : Store) (resetPasswordToken newPassword : String) :
    Except String Store :=
  match verifyToken st resetPasswordToken TokenType.RESET_PASSWORD false with
  | Except.error e => Except.error e
  | Except.ok tokenData =>
    match getUserById st tokenData.userId with
    | none => Except.error "Error"
    | some user =>
      match updateUserById st user.id newPassword with
      | Except.error e => Except.error e
      | Except.ok st1 =>
        Except.ok (deleteTokensByUserAndType st1 user.id TokenType.RESET_PASSWORD)

/-- auth.service.ts `resetPassword`: run the reset sequence and collapse any
failure into the single outward `ApiError(401, Password reset failed)`. -/
def resetPassword (st : Store) (resetPasswordToken newPassword : String) :
    Except ApiError Store :=
  match resetPasswordAttempt st resetPasswordToken newPassword with
  | Except.ok st1 => Except.ok st1
  | Except.error _ => Except.error (ApiError.mk 401 "Password reset failed")

/-- The `roleRights.get(user.role) ?? []` lookup of middlewares/auth.ts over
the role-to-permissions table (an absent role yields the empty permission
list). -/
def roleRightsOf (roleRights : List (String × List String)) (role : String) : List String :=
  ((roleRights.find? (fun p => p.1 == role)).map (fun p => p.2)).getD []

/-- The required-rights check of middlewares/auth.ts (the body after
authentication succeeded): when rights are required, allow only if the user
role grants every required right or the route userId parameter equals the
user id; deny with Forbidden otherwise.  The table is a parameter because
src/config/roles.ts is outside the provided sources. -/
def checkRequiredRights (roleRights : List (String × List String)) (user : User)
    (requiredRights : List String) (paramsUserId : Option String) : Except ApiError Unit :=
  if requiredRights.length != 0 then
    let userRights := roleRightsOf roleRights user.role
    let hasRequiredRights := requiredRights.all (fun r => userRights.contains r)
    if !hasRequiredRights && paramsUserId != some user.id then
      Except.error (ApiError.mk 403 "Forbidden")
    else
      Except.ok ()
  else
    Except.ok ()

/-- middlewares/auth.ts `auth`: validate the bearer token, reject with 401
when no session, then run the required-rights check.  The outer `Except`
carries failures of the store itself; the inner one is the middleware's
accept/reject decision. -/
def auth (roleRights : List (String × List String)) (st : Store) (token : String)
    (requiredRights : List String) (paramsUserId : Option String) (now : Int) :
    Except String (Except ApiError (Store × User)) :=
  match validateSessionToken st token now with
  | Except.error e => Except.error e
  | Except.ok (st1, result) =>
    match result.session, result.user with
    | some _, some user =>
      (match checkRequiredRights roleRights user requiredRights paramsUserId with
       | Except.ok _ => Except.ok (Except.ok (st1, user))
       | Except.error e => Except.ok (Except.error e))
    | some _, none => Except.error "TypeError: user is null"
    | none, _ => Except.ok (Except.error (ApiError.mk 401 "Please authenticate"))

/-- Finding in a concatenation whose first part has no match searches the
second part. -/
theorem find?_append_left_none {α : Type} (p : α → Bool) (l₁ l₂ : List α)
    (h : l₁.find? p = none) : (l₁ ++ l₂).find? p = l₂.find? p := by
  rw [List.find?_append, h, Option.none_or]

/-- C10: every value validateSessionToken returns has either both the session
and the user field present, or both absent. -/
theorem validateSessionToken_shape (st : Store) (tok : String) (now : Int)
    (st2 : Store) (res : SessionValidationResult)
    (h : validateSessionToken st tok now = Except.ok (st2, res)) :
    res.session.isSome = res.user.isSome := by
  simp only [validateSessionToken] at h
  split at h
  · cases h
    rfl
  · split at h
    · cases h
    · split at h
      · cases h
        rfl
      · split at h
        · cases h
          rfl
        · cases h
          rfl

/-- Witness for C10 at a concrete store and token. -/
theorem validateSessionToken_shape_witness :
    (Option.none (α := Session)).isSome = (Option.none (α := User)).isSome :=
  validateSessionToken_shape (Store.mk [] [] []) "w10" 0 (Store.mk [] [] [])
    (SessionValidationResult.mk none none) (by rfl)

/-- C5: verifyToken returns a stored token whose hash, purpose and blacklist
flag match, even when its expiry lies in the past — the lookup never
consults the expiry. -/
theorem verifyToken_ignores_expiry (st : Store) (tok : String) (ty : TokenType)
    (bl : Bool) (t : Token) (now : Int)
    (ht : st.tokens.find? (fun x =>
      x.token == sha256Hex tok && x.type == ty && x.blacklisted == bl) = some t)
    (hexpired : t.expires ≤ now) :
    verifyToken st tok ty bl = Except.ok t := by
  simp only [verifyToken]
  rw [ht]

/-- Witness for C5: a token that expired at time 5 is still returned at time
100. -/
theorem verifyToken_ignores_expiry_witness :
    verifyToken
      (Store.mk [] [Token.mk (sha256Hex "w5") "u1" 5 TokenType.RESET_PASSWORD false] [])
      "w5" TokenType.RESET_PASSWORD false =
      Except.ok (Token.mk (sha256Hex "w5") "u1" 5 TokenType.RESET_PASSWORD false) :=
  verifyToken_ignores_expiry
    (Store.mk [] [Token.mk (sha256Hex "w5") "u1" 5 TokenType.RESET_PASSWORD false] [])
    "w5" TokenType.RESET_PASSWORD false
    (Token.mk (sha256Hex "w5") "u1" 5 TokenType.RESET_PASSWORD false) 100
    (by rfl) (by decide)

/-- C9: every error resetPassword raises is the single outward
401 Password reset failed, whatever internal step failed. -/
theorem resetPassword_uniform_error (st : Store) (tok pw : String) (e : ApiError)
    (h : resetPassword st tok pw = Except.error e) :
    e = ApiError.mk 401 "Password reset failed" := by
  unfold resetPassword at h
  split at h
  · cases h
  · injection h with h1
    exact h1.symm

/-- Witness for C9: on the empty store the reset fails and the raised error
is exactly the uniform one. -/
theorem resetPassword_uniform_error_witness :
    resetPassword (Store.mk [] [] []) "w9" "np" =
      Except.error (ApiError.mk 401 "Password reset failed") ∧
    ApiError.mk 401 "Password reset failed" = ApiError.mk 401 "Password reset failed" :=
  ⟨by rfl,
    resetPassword_uniform_error (Store.mk [] [] []) "w9" "np"
      (ApiError.mk 401 "Password reset failed") (by rfl)⟩

/-- C2: a stored session whose expiry is at or before now makes
validateSessionToken return the absent result without an exception, and the
record is deleted, so a direct lookup of the session id in the returned
store is absent. -/
theorem validateSessionToken_lazy_expiry (st : Store) (tok : String) (now : Int) (s : Session)
    (hs : st.sessions.find? (fun x => x.id == sha256Hex tok) = some s)
    (hu : (st.users.find? (fun x => x.id == s.userId)).isSome = true)
    (hexpired : s.expiresAt ≤ now) :
    ∃ st2, validateSessionToken st tok now =
        Except.ok (st2, SessionValidationResult.mk none none) ∧
      st2.sessions.find? (fun x => x.id == sha256Hex tok) = none := by
  obtain ⟨u, hu2⟩ := Option.isSome_iff_exists.mp hu
  simp only [validateSessionToken, hs, hu2]
  rw [if_pos hexpired]
  refine ⟨_, rfl, ?_⟩
  rw [List.find?_eq_none]
  intro x hx hpx
  have hmem := (List.mem_filter.mp hx).2
  rw [beq_iff_eq] at hpx
  rw [bne_iff_ne] at hmem
  exact hmem hpx

/-- Witness for C2: a session that expired at time 0 is reported absent and
removed at time 5. -/
theorem validateSessionToken_lazy_expiry_witness :
    ∃ st2,
      validateSessionToken
        (Store.mk [Session.mk (sha256Hex "w2") "u1" 0] [] [User.mk "u1" "USER" "pw"])
        "w2" 5 = Except.ok (st2, SessionValidationResult.mk none none) ∧
      st2.sessions.find? (fun x => x.id == sha256Hex "w2") = none :=
  validateSessionToken_lazy_expiry
    (Store.mk [Session.mk (sha256Hex "w2") "u1" 0] [] [User.mk "u1" "USER" "pw"])
    "w2" 5 (Session.mk (sha256Hex "w2") "u1" 0) (by rfl) (by rfl) (by decide)

/-- C3: a stored non-expired session is renewed to now + 30 days exactly when
fewer than fifteen days of validity remain; with more than fifteen days
remaining the store is returned completely unchanged together with the
stored record. -/
theorem validateSessionToken_sliding_renewal (st : Store) (tok : String) (now : Int)
    (s : Session) (u : User)
    (hs : st.sessions.find? (fun x => x.id == sha256Hex tok) = some s)
    (hu : st.users.find? (fun x => x.id == s.userId) = some u)
    (hvalid : now < s.expiresAt) :
    (s.expiresAt - fifteenDaysMs ≤ now →
      validateSessionToken st tok now = Except.ok
        (Store.mk
          (st.sessions.map (fun x =>
            if x.id == s.id then Session.mk x.id x.userId (now + thirtyDaysMs) else x))
          st.tokens st.users,
          SessionValidationResult.mk
            (some (Session.mk s.id s.userId (now + thirtyDaysMs))) (some u))) ∧
    (now < s.expiresAt - fifteenDaysMs →
      validateSessionToken st tok now =
        Except.ok (st, SessionValidationResult.mk (some s) (some u))) := by
  constructor
  · intro hrenew
    simp only [validateSessionToken, hs, hu]
    rw [if_neg (not_le.mpr hvalid), if_pos hrenew]
  · intro hfar
    simp only [validateSessionToken, hs, hu]
    rw [if_neg (not_le.mpr hvalid), if_neg (not_le.mpr hfar)]

/-- Witness for C3 at a session inside the renewal window. -/
theorem validateSessionToken_sliding_renewal_witness :
    ((Session.mk (sha256Hex "w3") "u1" 100).expiresAt - fifteenDaysMs ≤ 50 →
      validateSessionToken
        (Store.mk [Session.mk (sha256Hex "w3") "u1" 100] [] [User.mk "u1" "USER" "pw"])
        "w3" 50 = Except.ok
        (Store.mk
          ([Session.mk (sha256Hex "w3") "u1" 100].map (fun x =>
            if x.id == (Session.mk (sha256Hex "w3") "u1" 100).id then
              Session.mk x.id x.userId (50 + thirtyDaysMs) else x))
          [] [User.mk "u1" "USER" "pw"],
          SessionValidationResult.mk
            (some (Session.mk (sha256Hex "w3") "u1" (50 + thirtyDaysMs)))
            (some (User.mk "u1" "USER" "pw")))) ∧
    (50 < (Session.mk (sha256Hex "w3") "u1" 100).expiresAt - fifteenDaysMs →
      validateSessionToken
        (Store.mk [Session.mk (sha256Hex "w3") "u1" 100] [] [User.mk "u1" "USER" "pw"])
        "w3" 50 = Except.ok
        (Store.mk [Session.mk (sha256Hex "w3") "u1" 100] [] [User.mk "u1" "USER" "pw"],
          SessionValidationResult.mk
            (some (Session.mk (sha256Hex "w3") "u1" 100))
            (some (User.mk "u1" "USER" "pw")))) :=
  validateSessionToken_sliding_renewal
    (Store.mk [Session.mk (sha256Hex "w3") "u1" 100] [] [User.mk "u1" "USER" "pw"])
    "w3" 50 (Session.mk (sha256Hex "w3") "u1" 100) (User.mk "u1" "USER" "pw")
    (by rfl) (by rfl) (by decide)

/-- C1: a session freshly created with a future expiry validates immediately
to a non-absent result whose user id is the user id the session was created
with. -/
theorem createSession_validate_roundtrip (st : Store) (tok userId : String) (now : Int)
    (optExp : Option Int) (st1 : Store) (s : Session)
    (hc : createSession st tok userId now optExp = Except.ok (st1, s))
    (husr : st.users.any (fun x => x.id == userId) = true)
    (hfut : now < optExp.getD (now + thirtyDaysMs)) :
    ∃ st2 res, validateSessionToken st1 tok now = Except.ok (st2, res) ∧
      res.session.isSome = true ∧ ∃ u, res.user = some u ∧ u.id = userId := by
  simp only [createSession] at hc
  split at hc
  · cases hc
  · rename_i hnodup
    cases hc
    have hfind1 : st.sessions.find? (fun x => x.id == sha256Hex tok) = none := by
      rw [List.find?_eq_none]
      intro x hx hpx
      exact hnodup (List.any_eq_true.mpr ⟨x, hx, hpx⟩)
    obtain ⟨u, hu2⟩ : ∃ u, st.users.find? (fun x => x.id == userId) = some u := by
      apply Option.isSome_iff_exists.mp
      rw [List.find?_isSome]
      obtain ⟨x, hx, hpx⟩ := List.any_eq_true.mp husr
      exact ⟨x, hx, hpx⟩
    have huid : u.id = userId := by
      have := List.find?_some hu2
      rwa [beq_iff_eq] at this
    have hsingle : List.find? (fun x => x.id == sha256Hex tok)
        [Session.mk (sha256Hex tok) userId (optExp.getD (now + thirtyDaysMs))] =
        some (Session.mk (sha256Hex tok) userId (optExp.getD (now + thirtyDaysMs))) := by
      simp [List.find?]
    simp only [validateSessionToken, find?_append_left_none _ _ _ hfind1, hsingle, hu2]
    rw [if_neg (not_le.mpr hfut)]
    by_cases hrenew : optExp.getD (now + thirtyDaysMs) - fifteenDaysMs ≤ now
    · rw [if_pos hrenew]
      exact ⟨_, _, rfl, rfl, u, rfl, huid⟩
    · rw [if_neg hrenew]
      exact ⟨_, _, rfl, rfl, u, rfl, huid⟩

/-- Witness for C1: a fresh session for user u1 validates back to u1. -/
theorem createSession_validate_roundtrip_witness :
    ∃ st2 res,
      validateSessionToken
        (Store.mk [Session.mk (sha256Hex "w1") "u1" ((0 : Int) + thirtyDaysMs)] []
          [User.mk "u1" "USER" "pw"]) "w1" 0 = Except.ok (st2, res) ∧
      res.session.isSome = true ∧ ∃ u, res.user = some u ∧ u.id = "u1" :=
  createSession_validate_roundtrip
    (Store.mk [] [] [User.mk "u1" "USER" "pw"]) "w1" "u1" 0 none
    (Store.mk [Session.mk (sha256Hex "w1") "u1" ((0 : Int) + thirtyDaysMs)] []
      [User.mk "u1" "USER" "pw"])
    (Session.mk (sha256Hex "w1") "u1" ((0 : Int) + thirtyDaysMs))
    (by rfl) (by rfl) (by decide)

/-- For a lawful equality test, list containment agrees with membership. -/
theorem contains_iff_mem_str (l : List String) (a : String) : l.contains a = true ↔ a ∈ l := by
  rw [List.contains_iff_exists_mem_beq]
  constructor
  · rintro ⟨b, hb, he⟩
    exact (eq_of_beq he) ▸ hb
  · intro h
    exact ⟨a, h, by simp⟩

/-- C4: the identifier a store-writing operation persists for a raw token is
the lowercase-hex SHA-256 digest of its UTF-8 bytes — createSession writes
only a session record keyed by the digest, saveToken writes only a token
record keyed by the digest, and both operations depend on the raw token only
through that digest. -/
theorem hash_only_persistence (st : Store) (tok userId : String) (now : Int)
    (optExp : Option Int) (expires : Int) (ty : TokenType) (bl : Bool)
    (st1 : Store) (s : Session)
    (hc : createSession st tok userId now optExp = Except.ok (st1, s)) :
    (s.id = sha256Hex tok ∧ st1.sessions = st.sessions ++ [s] ∧
      st1.tokens = st.tokens ∧ st1.users = st.users) ∧
    ((saveToken st tok userId expires ty bl).2.token = sha256Hex tok ∧
      (saveToken st tok userId expires ty bl).1.tokens =
        st.tokens ++ [(saveToken st tok userId expires ty bl).2] ∧
      (saveToken st tok userId expires ty bl).1.sessions = st.sessions ∧
      (saveToken st tok userId expires ty bl).1.users = st.users) ∧
    (∀ tok2, sha256Hex tok2 = sha256Hex tok →
      createSession st tok2 userId now optExp = createSession st tok userId now optExp ∧
      saveToken st tok2 userId expires ty bl = saveToken st tok userId expires ty bl) := by
  refine ⟨?_, ⟨rfl, rfl, rfl, rfl⟩, ?_⟩
  · simp only [createSession] at hc
    split at hc
    · cases hc
    · cases hc
      exact ⟨rfl, rfl, rfl, rfl⟩
  · intro tok2 heq
    constructor
    · simp only [createSession, heq]
    · simp only [saveToken, heq]

/-- Witness for C4: a concrete successful createSession yields the digest as
the stored id. -/
theorem hash_only_persistence_witness :
    createSession (Store.mk [] [] []) "w4" "u1" 0 none =
      Except.ok (Store.mk [Session.mk (sha256Hex "w4") "u1" ((0 : Int) + thirtyDaysMs)] [] [],
        Session.mk (sha256Hex "w4") "u1" ((0 : Int) + thirtyDaysMs)) ∧
    (Session.mk (sha256Hex "w4") "u1" ((0 : Int) + thirtyDaysMs)).id = sha256Hex "w4" :=
  ⟨by rfl,
    (hash_only_persistence (Store.mk [] [] []) "w4" "u1" 0 none 7 TokenType.VERIFY_EMAIL false
      (Store.mk [Session.mk (sha256Hex "w4") "u1" ((0 : Int) + thirtyDaysMs)] [] [])
      (Session.mk (sha256Hex "w4") "u1" ((0 : Int) + thirtyDaysMs)) (by rfl)).1.1⟩

/-- C7: with a non-empty required-permission list the check allows exactly
when the user's role grants every required permission or the route subject
user id equals the user's own id, and every denial is the 403 Forbidden
error. -/
theorem checkRequiredRights_decision (rr : List (String × List String)) (user : User)
    (req : List String) (puid : Option String) (hne : req ≠ []) :
    (checkRequiredRights rr user req puid = Except.ok () ↔
      ((∀ r ∈ req, r ∈ roleRightsOf rr user.role) ∨ puid = some user.id)) ∧
    (checkRequiredRights rr user req puid = Except.ok () ∨
      checkRequiredRights rr user req puid = Except.error (ApiError.mk 403 "Forbidden")) := by
  have hlen : (req.length != 0) = true := by
    rw [bne_iff_ne]
    simpa using hne
  simp only [checkRequiredRights, if_pos hlen]
  by_cases hall : req.all (fun r => (roleRightsOf rr user.role).contains r) = true
  · have hmem : ∀ r ∈ req, r ∈ roleRightsOf rr user.role := by
      intro r hr
      exact (contains_iff_mem_str _ _).mp (List.all_eq_true.mp hall r hr)
    rw [hall]
    simp only [Bool.not_true, Bool.false_and, Bool.false_eq_true, if_false]
    exact ⟨⟨fun _ => Or.inl hmem, fun _ => by trivial⟩, Or.inl (by trivial)⟩
  · rw [Bool.not_eq_true] at hall
    rw [hall]
    simp only [Bool.not_false, Bool.true_and]
    by_cases hp : puid = some user.id
    · have hbne : (puid != some user.id) = false := by
        rw [bne_eq_false_iff_eq]
        exact hp
      rw [hbne]
      simp only [Bool.false_eq_true, if_false]
      exact ⟨⟨fun _ => Or.inr hp, fun _ => by trivial⟩, Or.inl (by trivial)⟩
    · have hbne : (puid != some user.id) = true := by
        rw [bne_iff_ne]
        exact hp
      rw [hbne]
      simp only [if_true]
      constructor
      · constructor
        · intro habs
          cases habs
        · intro hdis
          rcases hdis with hperm | hid
          · exfalso
            rw [List.all_eq_false] at hall
            obtain ⟨r, hr, hcon⟩ := hall
            exact hcon ((contains_iff_mem_str _ _).mpr (hperm r hr))
          · exact absurd hid hp
      · exact Or.inr (by trivial)

/-- Witness for C7: under a role with no permissions the identity override
allows the check on the user's own id. -/
theorem checkRequiredRights_decision_witness :
    (checkRequiredRights [("USER", [])] (User.mk "u1" "USER" "pw") ["anyPermission"]
        (some "u1") = Except.ok () ↔
      ((∀ r ∈ ["anyPermission"], r ∈ roleRightsOf [("USER", [])] (User.mk "u1" "USER" "pw").role) ∨
        some "u1" = some (User.mk "u1" "USER" "pw").id)) ∧
    (checkRequiredRights [("USER", [])] (User.mk "u1" "USER" "pw") ["anyPermission"]
        (some "u1") = Except.ok () ∨
      checkRequiredRights [("USER", [])] (User.mk "u1" "USER" "pw") ["anyPermission"]
        (some "u1") = Except.error (ApiError.mk 403 "Forbidden")) :=
  checkRequiredRights_decision [("USER", [])] (User.mk "u1" "USER" "pw") ["anyPermission"]
    (some "u1") (by decide)

/-- Hashed token identifiers are pairwise distinct in a store respecting the
uniqueness the persistence layer enforces on them; two stored tokens with
the same hash are then the same record. -/
theorem token_hash_injective (l : List Token)
    (huniq : l.Pairwise (fun a b => a.token ≠ b.token)) :
    ∀ a ∈ l, ∀ b ∈ l, a.token = b.token → a = b := by
  intro a ha b hb heq
  by_contra hab
  have hsymm : Symmetric (fun (a b : Token) => a.token ≠ b.token) :=
    fun x y h e => h e.symm
  exact (List.Pairwise.forall hsymm huniq) ha hb hab heq

/-- C8: a purpose token stored with blacklisted set is never the result of a
verifyToken call asking for non-blacklisted tokens; under the uniqueness of
hashed identifiers the call fails with the not-found error. -/
theorem verifyToken_blacklist_isolation (st : Store) (tok : String) (ty : TokenType)
    (t : Token) (hmem : t ∈ st.tokens) (htk : t.token = sha256Hex tok)
    (hty : t.type = ty) (hbl : t.blacklisted = true)
    (huniq : st.tokens.Pairwise (fun a b => a.token ≠ b.token)) :
    verifyToken st tok ty false ≠ Except.ok t ∧
    verifyToken st tok ty false = Except.error "Token not found" := by
  have hnone : st.tokens.find? (fun x =>
      x.token == sha256Hex tok && x.type == ty && x.blacklisted == false) = none := by
    rw [List.find?_eq_none]
    intro x hx hpx
    simp only [Bool.and_eq_true, beq_iff_eq] at hpx
    obtain ⟨⟨hx1, hx2⟩, hx3⟩ := hpx
    have hxt : x = t := token_hash_injective st.tokens huniq x hx t hmem (by rw [hx1, htk])
    rw [hxt] at hx3
    simp [hbl] at hx3
  have herr : verifyToken st tok ty false = Except.error "Token not found" := by
    simp only [verifyToken, hnone]
  refine ⟨?_, herr⟩
  rw [herr]
  intro hcontra
  cases hcontra

/-- Witness for C8: a blacklisted reset token is not found by a
non-blacklisted lookup. -/
theorem verifyToken_blacklist_isolation_witness :
    verifyToken (Store.mk [] [Token.mk (sha256Hex "w8") "u1" 99 TokenType.RESET_PASSWORD true] [])
        "w8" TokenType.RESET_PASSWORD false ≠
      Except.ok (Token.mk (sha256Hex "w8") "u1" 99 TokenType.RESET_PASSWORD true) ∧
    verifyToken (Store.mk [] [Token.mk (sha256Hex "w8") "u1" 99 TokenType.RESET_PASSWORD true] [])
        "w8" TokenType.RESET_PASSWORD false = Except.error "Token not found" :=
  verifyToken_blacklist_isolation
    (Store.mk [] [Token.mk (sha256Hex "w8") "u1" 99 TokenType.RESET_PASSWORD true] [])
    "w8" TokenType.RESET_PASSWORD
    (Token.mk (sha256Hex "w8") "u1" 99 TokenType.RESET_PASSWORD true)
    (by simp) (by rfl) (by rfl) (by rfl) (by simp)


/-- C6: after a successful resetPassword consuming a reset token, no
RESET_PASSWORD token of the owning user remains in the store, and a second
verifyToken call with the same raw token and purpose fails with the
not-found error (hashed identifiers assumed pairwise unique, as the
persistence layer enforces). -/
theorem resetPassword_single_use (st : Store) (tok pw : String) (st2 : Store) (td : Token)
    (huniq : st.tokens.Pairwise (fun a b => a.token ≠ b.token))
    (hok : resetPassword st tok pw = Except.ok st2)
    (htd : verifyToken st tok TokenType.RESET_PASSWORD false = Except.ok td) :
    (∀ t ∈ st2.tokens, ¬(t.userId = td.userId ∧ t.type = TokenType.RESET_PASSWORD)) ∧
    verifyToken st2 tok TokenType.RESET_PASSWORD false = Except.error "Token not found" := by
  have hfind : st.tokens.find? (fun x => x.token == sha256Hex tok &&
      x.type == TokenType.RESET_PASSWORD && x.blacklisted == false) = some td := by
    have h2 := htd
    simp only [verifyToken] at h2
    split at h2
    · cases h2
    · rename_i td1 hf1
      injection h2 with h3
      rw [h3] at hf1
      exact hf1
  have htdmem : td ∈ st.tokens := List.mem_of_find?_eq_some hfind
  have htdpred := List.find?_some hfind
  simp only [Bool.and_eq_true, beq_iff_eq] at htdpred
  obtain ⟨⟨htk1, htk2⟩, htk3⟩ := htdpred
  simp only [resetPassword] at hok
  split at hok
  · rename_i st1 hatt
    cases hok
    simp only [resetPasswordAttempt] at hatt
    split at hatt
    · rename_i e heq
      rw [htd] at heq
      cases heq
    · rename_i tokenData heq
      rw [htd] at heq
      injection heq with heq2
      subst heq2
      split at hatt
      · cases hatt
      · rename_i user huser
        split at hatt
        · cases hatt
        · rename_i st1x hupd
          cases hatt
          simp only [getUserById] at huser
          have huserid : user.id = td.userId := by
            have h4 := List.find?_some huser
            rwa [beq_iff_eq] at h4
          simp only [updateUserById] at hupd
          split at hupd
          · cases hupd
            constructor
            · intro t ht hcon
              obtain ⟨hcon1, hcon2⟩ := hcon
              simp only [deleteTokensByUserAndType] at ht
              obtain ⟨hmm, hflt⟩ := List.mem_filter.mp ht
              simp [hcon1, hcon2, huserid] at hflt
            · have hnone : (st.tokens.filter (fun x =>
                  !(x.userId == user.id && x.type == TokenType.RESET_PASSWORD))).find? (fun x =>
                  x.token == sha256Hex tok && x.type == TokenType.RESET_PASSWORD &&
                    x.blacklisted == false) = none := by
                rw [List.find?_eq_none]
                intro x hx hpx
                obtain ⟨hxm, hxf⟩ := List.mem_filter.mp hx
                simp only [Bool.and_eq_true, beq_iff_eq] at hpx
                obtain ⟨⟨hp1, hp2⟩, hp3⟩ := hpx
                have hxtd : x = td :=
                  token_hash_injective st.tokens huniq x hxm td htdmem (by rw [hp1, htk1])
                rw [hxtd] at hxf
                simp [huserid, htk2] at hxf
              simp only [verifyToken, deleteTokensByUserAndType, hnone]
          · cases hupd
  · rename_i e hatt
    cases hok

/-- Witness for C6: consuming the only reset token of user u1 empties the
token table and a second verification fails. -/
theorem resetPassword_single_use_witness :
    (∀ t ∈ (Store.mk [] [] [User.mk "u1" "USER" "np"]).tokens,
      ¬(t.userId = (Token.mk (sha256Hex "w6") "u1" 999 TokenType.RESET_PASSWORD false).userId ∧
        t.type = TokenType.RESET_PASSWORD)) ∧
    verifyToken (Store.mk [] [] [User.mk "u1" "USER" "np"]) "w6" TokenType.RESET_PASSWORD false =
      Except.error "Token not found" :=
  resetPassword_single_use
    (Store.mk [] [Token.mk (sha256Hex "w6") "u1" 999 TokenType.RESET_PASSWORD false]
      [User.mk "u1" "USER" "old"]) "w6" "np"
    (Store.mk [] [] [User.mk "u1" "USER" "np"])
    (Token.mk (sha256Hex "w6") "u1" 999 TokenType.RESET_PASSWORD false)
    (by simp) (by rfl) (by rfl)
